import Mathlib

/-!
Shallow embedding of the `fastapi-tutorial` application (`src/main.py`).

Handlers are translated from the source as pure Lean functions.  Python
floats are modelled as rationals (`Rat`); Python `str` as `String`;
`x | None` as `Option`; JSON payloads and JSON responses as an explicit
`Json` inductive (objects keep their key order, which is the declaration
order of the Python dict / pydantic model).

The route matcher and the parameter binder are code of the framework, not
of `src/main.py`; the source only registers routes and declares parameter
specs.  They are therefore modelled from the specification text,
with one deliberate exception that the source itself documents: the
comment at src/main.py line 24 ("order is important, prz before" the
name-pattern route) records that routes are tried in registration order,
first match wins, which is the behaviour the definitions below follow.
-/

namespace FastApiTutorial

/-- JSON values, used for request bodies and response payloads.  Objects
are ordered association lists, matching Python dict insertion order. -/
inductive Json where
  | null : Json
  | str : String → Json
  | num : Rat → Json
  | boolean : Bool → Json
  | arr : List Json → Json
  | obj : List (String × Json) → Json
deriving Repr

/-- Binding and validation errors, per the spec: a 422 carries the
parameter name and the violated constraint; enum mismatches list the
valid members. -/
inductive BindError where
  | typeError : String → BindError
  | missing : String → BindError
  | enumError : String → List String → BindError
  | constraintError : String → String → BindError
deriving Repr, DecidableEq

/-- Outcome of handling one request: 200 with a JSON body, 422 with the
collected binding errors, 404, or 500 (unhandled handler fault). -/
inductive Response where
  | ok : Json → Response
  | err : List BindError → Response
  | notFound : Response
  | handlerFault : Response
deriving Repr

/-- True exactly on 200 responses. -/
def Response.isOk : Response → Bool
  | Response.ok _ => true
  | _ => false

/-- Serialize an optional string, Python `None` becoming JSON null. -/
def optStr : Option String → Json
  | none => Json.null
  | some s => Json.str s

/-- The `Spice` enum of src/main.py: members pepper, salt, maggi, each
with a string value equal to its name. -/
inductive Spice where
  | pepper : Spice
  | salt : Spice
  | maggi : Spice
deriving Repr, DecidableEq

/-- The declared string value of each `Spice` member. -/
def Spice.value : Spice → String
  | Spice.pepper => "pepper"
  | Spice.salt => "salt"
  | Spice.maggi => "maggi"

/-- The declared member values of `Spice`, in declaration order. -/
def spiceValues : List String := [Spice.pepper.value, Spice.salt.value, Spice.maggi.value]

/-- Modelled from the spec: an enum-typed parameter binds when the raw
value exactly matches one declared member value, and to that member. -/
def Spice.fromString (s : String) : Option Spice :=
  if s = Spice.pepper.value then some Spice.pepper
  else if s = Spice.salt.value then some Spice.salt
  else if s = Spice.maggi.value then some Spice.maggi
  else none

/-- Handler `get_spice` of src/main.py: dispatches on the bound enum
member. -/
def get_spice (spice : Spice) : Json :=
  if spice = Spice.pepper then Json.obj [("action", Json.str "use pepper")]
  else if spice.value = "salt" then Json.obj [("action", Json.str "use salt")]
  else Json.obj [("action", Json.str "use maggi")]

/-- GET /spice/(spice) end to end: bind the raw path segment as a `Spice`
(422 listing the valid members on mismatch), then run `get_spice`. -/
def handleSpice (raw : String) : Response :=
  match Spice.fromString raw with
  | none => Response.err [BindError.enumError "spice" spiceValues]
  | some sp => Response.ok (get_spice sp)

/-- Handler `read_name` of src/main.py. -/
def read_name (name : String) : Json :=
  Json.obj [("Name", Json.str name), ("Type", Json.str "<class \x27str\x27>")]

/-- Handler `read_age` of src/main.py: receives the path parameter
already converted to an integer. -/
def read_age (age : Int) : Json :=
  Json.obj [("Age", Json.num age), ("Type", Json.str "<class \x27int\x27>")]

/-- Accumulate decimal digits into a number; any non-digit character
fails the conversion. -/
def digitsToNat : List Char → Nat → Option Nat
  | [], acc => some acc
  | c :: cs, acc =>
    if c.isDigit then digitsToNat cs (acc * 10 + (c.toNat - 48)) else none

/-- Modelled from the spec: a parameter declared `int` is converted from
the raw captured string; conversion failure is a binding error.  The
conversion accepts an optional leading minus sign followed by one or
more decimal digits; surrounding whitespace and a leading plus sign,
which Python `int()` also accepts, are not modelled: no claim depends
on them. -/
def parsePathInt (s : String) : Option Int :=
  match s.data with
  | [] => none
  | ['-'] => none
  | '-' :: c :: cs => (digitsToNat (c :: cs) 0).map (fun n => -(n : Int))
  | cs => (digitsToNat cs 0).map (fun n => (n : Int))

/-- GET /names/age/(age) end to end: convert the captured segment to an
integer (422 on failure) and run `read_age`. -/
def handleAge (seg : String) : Response :=
  match parsePathInt seg with
  | none => Response.err [BindError.typeError "age"]
  | some n => Response.ok (read_age n)

/-! ## Query parameter binding -/

/-- The decoded query string of a request: an ordered list of key/value
pairs, in order of appearance in the request. -/
abbrev QueryParams := List (String × String)

/-- Modelled from the spec: all values carried by a given query key, in
order of appearance in the request. -/
def getQueryValues (key : String) (params : QueryParams) : List String :=
  (List.filter (fun p => p.1 = key) params).map Prod.snd

/-- Modelled from the spec: a single-valued query parameter reads the
last occurrence of its key (the framework keeps the last repeated key),
or is absent. -/
def getQueryValue (key : String) (params : QueryParams) : Option String :=
  (getQueryValues key params).getLast?

/-- Handler `handle_multi_queries` of src/main.py: returns the bound
list under key q. -/
def handle_multi_queries (q : List String) : Json :=
  Json.obj [("q", Json.arr (q.map Json.str))]

/-- Binding for `q: list = Query(default=[..])` on /items-multi-q/:
repeated q keys are collected in order of appearance; when no q key is
present the default list ["zupa"] is used. -/
def bindMultiQ (params : QueryParams) : List String :=
  match getQueryValues "q" params with
  | [] => ["zupa"]
  | vs => vs

/-- GET /items-multi-q/ end to end. -/
def handleMultiQ (params : QueryParams) : Response :=
  Response.ok (handle_multi_queries (bindMultiQ params))

/-- The regex constraint of the /items/ query parameter.  The declared
pattern is anchored at both ends around the literal fixedquery, so a
string matches it exactly when it is the string fixedquery. -/
def regexFixedquery (s : String) : Bool := s = "fixedquery"

/-- Handler `items` of src/main.py: base result has key fuu; a truthy
bound q (non-empty string) is echoed under key q. -/
def items (q : Option String) : Json :=
  Json.obj (("fuu", Json.str "bar") ::
    (match q with
     | some s => if s = "" then [] else [("q", Json.str s)]
     | none => []))

/-- Constraint check for the /items/ query parameter, from its
declaration: min_length=3, max_length=50, regex anchored on fixedquery.
Returns the violated constraints. -/
def itemsQErrors (s : String) : List BindError :=
  (if s.length < 3 then [BindError.constraintError "item-query" "min_length"] else []) ++
  (if 50 < s.length then [BindError.constraintError "item-query" "max_length"] else []) ++
  (if regexFixedquery s then [] else [BindError.constraintError "item-query" "regex"])

/-- GET /items/ end to end: the query value is read under the declared
alias item-query; absent is allowed (default None); a present value must
pass the declared constraints, else 422. -/
def handleItems (params : QueryParams) : Response :=
  match getQueryValue "item-query" params with
  | none => Response.ok (items none)
  | some s =>
    if itemsQErrors s = [] then Response.ok (items (some s))
    else Response.err (itemsQErrors s)

/-- Handler `new_path` of src/main.py. -/
def new_path (q : String) (item_id : Int) : Json :=
  Json.obj [("item_id", Json.num item_id), ("q", Json.str q)]

/-- Binding errors for the item_id path parameter of /new-path/:
integer conversion, then the declared bounds ge=1 and lt=1000. -/
def newPathItemIdErrors (raw : String) : List BindError :=
  match parsePathInt raw with
  | none => [BindError.typeError "item_id"]
  | some n =>
    if n < 1 then [BindError.constraintError "item_id" "ge"]
    else if 1000 ≤ n then [BindError.constraintError "item_id" "lt"]
    else []

/-- GET /new-path/(item_id) end to end: q is a required query parameter
(missing is itself a binding error), item_id must convert to an integer
and satisfy 1 ≤ item_id < 1000; all binding errors are collected. -/
def handleNewPath (raw : String) (params : QueryParams) : Response :=
  let qErrors := match getQueryValue "q" params with
    | none => [BindError.missing "q"]
    | some _ => []
  match qErrors ++ newPathItemIdErrors raw with
  | [] =>
    match getQueryValue "q" params, parsePathInt raw with
    | some qv, some n => Response.ok (new_path qv n)
    | _, _ => Response.notFound
  | es => Response.err es

/-! ## Route table and matcher -/

/-- One segment of a registered path pattern: a literal, or a named
parameter (written with braces in the source). -/
inductive Segment where
  | lit : String → Segment
  | cap : String → Segment
deriving Repr, DecidableEq

/-- HTTP methods used by src/main.py. -/
inductive Method where
  | get : Method
  | post : Method
  | put : Method
deriving Repr, DecidableEq

/-- The handlers registered by src/main.py, one per route decorator, in
source order. -/
inductive HandlerId where
  | root : HandlerId
  | read_prz : HandlerId
  | read_name : HandlerId
  | read_age : HandlerId
  | get_spice : HandlerId
  | get_query_parameter : HandlerId
  | create_user : HandlerId
  | create_item : HandlerId
  | update_item : HandlerId
  | update_single_model : HandlerId
  | create_images : HandlerId
  | items : HandlerId
  | handle_multi_queries : HandlerId
  | new_path : HandlerId
deriving Repr, DecidableEq

/-- A registered route: method, path pattern, handler. -/
structure Route where
  method : Method
  pattern : List Segment
  handler : HandlerId
deriving Repr, DecidableEq

/-- Modelled from the spec: a literal segment matches only an identical
literal; a parameter segment matches any non-empty segment. -/
def matchSegment : Segment → String → Bool
  | Segment.lit l, s => l = s
  | Segment.cap _, s => s ≠ ""

/-- A pattern matches a path when they have the same number of segments
and each pattern segment matches the corresponding path segment. -/
def matchPattern : List Segment → List String → Bool
  | [], [] => true
  | p :: ps, s :: ss => matchSegment p s && matchPattern ps ss
  | _, _ => false

/-- Route matching.  Modelled from the spec, except for precedence,
where the source comment at src/main.py line 24 ("order is important,
prz before" the parametric route) documents the framework behaviour:
routes are tried in registration order and the first match wins. -/
def matchRoute (routes : List Route) (m : Method) (path : List String) : Option HandlerId :=
  (routes.find? (fun r => m = r.method && matchPattern r.pattern path)).map Route.handler

/-- A request path, as its list of segments: the path string split on
slashes, with the empty segment before the leading slash dropped, so a
trailing slash contributes a final empty segment. -/
def segmentsPrz : List String := ["names", "name", "prz"]

/-- The route registered by the decorator on `read_prz`
(GET /names/name/prz, all segments literal). -/
def routePrz : Route :=
  { method := Method.get
    pattern := [Segment.lit "names", Segment.lit "name", Segment.lit "prz"]
    handler := HandlerId.read_prz }

/-- The route registered by the decorator on `read_name`
(GET /names/name/ followed by a name parameter). -/
def routeName : Route :=
  { method := Method.get
    pattern := [Segment.lit "names", Segment.lit "name", Segment.cap "name"]
    handler := HandlerId.read_name }

/-- The full route table of src/main.py, in registration (source) order. -/
def appRoutes : List Route :=
  [ { method := Method.get, pattern := [Segment.lit ""], handler := HandlerId.root }
  , routePrz
  , routeName
  , { method := Method.get
      pattern := [Segment.lit "names", Segment.lit "age", Segment.cap "age"]
      handler := HandlerId.read_age }
  , { method := Method.get
      pattern := [Segment.lit "spice", Segment.cap "spice"]
      handler := HandlerId.get_spice }
  , { method := Method.get
      pattern := [Segment.lit "get-query-params"]
      handler := HandlerId.get_query_parameter }
  , { method := Method.post
      pattern := [Segment.lit "create-user", Segment.lit ""]
      handler := HandlerId.create_user }
  , { method := Method.post
      pattern := [Segment.lit "items", Segment.lit ""]
      handler := HandlerId.create_item }
  , { method := Method.put
      pattern := [Segment.lit "items", Segment.cap "item_id"]
      handler := HandlerId.update_item }
  , { method := Method.put
      pattern := [Segment.lit "items", Segment.lit "single-model", Segment.cap "item_id"]
      handler := HandlerId.update_single_model }
  , { method := Method.post
      pattern := [Segment.lit "items", Segment.lit "create-images"]
      handler := HandlerId.create_images }
  , { method := Method.get
      pattern := [Segment.lit "items", Segment.lit ""]
      handler := HandlerId.items }
  , { method := Method.get
      pattern := [Segment.lit "items-multi-q", Segment.lit ""]
      handler := HandlerId.handle_multi_queries }
  , { method := Method.get
      pattern := [Segment.lit "new-path", Segment.cap "item_id"]
      handler := HandlerId.new_path } ]

/-! ## Request-body models -/

/-- The `Image` model of src/main.py: a URL and a name. -/
structure Image where
  url : String
  name : String
deriving Repr, DecidableEq

/-- The `Item` model of src/main.py.  `tax: float | None` admits null;
`tags: set[str]` is modelled as its list of distinct elements. -/
structure Item where
  name : String
  description : Option String := none
  price : Rat
  tax : Option Rat
  tags : List String := []
  image : Option Image := none
deriving Repr, DecidableEq

/-- The `UserOutput` model of src/main.py. -/
structure UserOutput where
  username : String
  full_name : Option String := none
  age : Int := 0
deriving Repr, DecidableEq

/-- The `User` model of src/main.py: extends `UserOutput` with a
required password. -/
structure User extends UserOutput where
  password : String
deriving Repr, DecidableEq

/-- `Image.dict()`: fields in declaration order. -/
def imageDict (im : Image) : List (String × Json) :=
  [("url", Json.str im.url), ("name", Json.str im.name)]

/-- Serialize an optional image, `None` becoming JSON null. -/
def optImage : Option Image → Json
  | none => Json.null
  | some im => Json.obj (imageDict im)

/-- Serialize an optional rational, `None` becoming JSON null. -/
def optNum : Option Rat → Json
  | none => Json.null
  | some q => Json.num q

/-- `Item.dict()`: fields in declaration order. -/
def itemDict (i : Item) : List (String × Json) :=
  [ ("name", Json.str i.name)
  , ("description", optStr i.description)
  , ("price", Json.num i.price)
  , ("tax", optNum i.tax)
  , ("tags", Json.arr (i.tags.map Json.str))
  , ("image", optImage i.image) ]

/-- `User.dict()`: inherited fields first, then password. -/
def userDict (u : User) : List (String × Json) :=
  [ ("username", Json.str u.username)
  , ("full_name", optStr u.full_name)
  , ("age", Json.num u.age)
  , ("password", Json.str u.password) ]

/-- The declared field names of the response model `UserOutput`. -/
def userOutputFields : List String := ["username", "full_name", "age"]

/-- The response_model_exclude set of the /create-user/ decorator. -/
def createUserExclude : List String := ["age"]

/-- POST /create-user/ response shaping: the handler returns the full
`User` instance; the response model `UserOutput` with exclude age
filters the serialized fields down to the declared response fields
minus the excluded ones. -/
def create_user (u : User) : List (String × Json) :=
  (userDict u).filter (fun kv => kv.1 ∈ userOutputFields && kv.1 ∉ createUserExclude)

/-- The marker appended by `create_item` to the item name. -/
def happyMarker : String := " + happy!"

/-- Handler `create_item` of src/main.py: renames the item, dumps it,
and adds brutto = price + tax.  When tax is null the Python addition
`item.price + item.tax` raises, modelled as `none` (a handler fault). -/
def create_item (i : Item) : Option (List (String × Json)) :=
  match i.tax with
  | none => none
  | some t =>
    let renamed : Item := { i with name := i.name ++ happyMarker }
    some (itemDict renamed ++ [("brutto", Json.num (i.price + t))])

/-- Handler `update_item` of src/main.py: echoes the path id and the
three bound body parameters under their own keys. -/
def update_item (item_id : Int) (i : Item) (u : User) (counter : Int) : Json :=
  Json.obj
    [ ("item_id", Json.num item_id)
    , ("item", Json.obj (itemDict i))
    , ("user", Json.obj (userDict u))
    , ("counter", Json.num counter) ]

/-- Handler `update_single_model` of src/main.py: dumps the item and
adds brutto = price + tax; as in `create_item`, a null tax makes the
addition raise, modelled as `none`. -/
def update_single_model (item_id : Int) (i : Item) : Option Json :=
  match i.tax with
  | none => none
  | some t =>
    some (Json.obj
      [ ("item_id", Json.num item_id)
      , ("item", Json.obj (itemDict i ++ [("brutto", Json.num (i.price + t))])) ])

/-! ## Body decoding

Modelled from the spec: the body is parsed as the declared model, each
declared field read from the corresponding top-level key and validated
against its declared constraints. -/

/-- Look up a key in a JSON object body. -/
def jsonLookup (key : String) : Json → Option Json
  | Json.obj kvs => kvs.lookup key
  | _ => none

/-- Decode a JSON value as a string field. -/
def jsonToStr : Json → Option String
  | Json.str s => some s
  | _ => none

/-- Decode a JSON value as a number (int or float literal). -/
def jsonToNum : Json → Option Rat
  | Json.num q => some q
  | _ => none

/-- Decode a JSON value as an integer field: an integral number, an
integer-shaped string, or a boolean (Python bool is an int). -/
def jsonToInt : Json → Option Int
  | Json.num q => some (q.num / (q.den : Int))
  | Json.str s => parsePathInt s
  | Json.boolean b => some (if b then 1 else 0)
  | _ => none

/-- Modelled from the spec: an image url must be a syntactically valid
absolute URL; only the http(s) scheme check is modelled, which no claim
exercises further. -/
def isHttpUrl (s : String) : Bool :=
  ("http://".isPrefixOf s && s.length > 7) || ("https://".isPrefixOf s && s.length > 8)

/-- Decode the `Image` model from a JSON value. -/
def decodeImage (j : Json) : Option Image := do
  let url ← jsonLookup "url" j >>= jsonToStr
  if isHttpUrl url then
    let name ← jsonLookup "name" j >>= jsonToStr
    some { url := url, name := name }
  else none

/-- Decode an optional field: a missing or null key yields the default
`none`; a present non-null value must decode. -/
def decodeOptField (dec : Json → Option α) (key : String) (j : Json) : Option (Option α) :=
  match jsonLookup key j with
  | none => some none
  | some Json.null => some none
  | some v => (dec v).map some

/-- Decode the `Item` model from a JSON value, applying the declared
constraints: description max_length=30, price gt=0, tax nullable, tags
a set of strings (duplicates collapsed), image an optional `Image`. -/
def decodeItem (j : Json) : Option Item := do
  let name ← jsonLookup "name" j >>= jsonToStr
  let description ← decodeOptField jsonToStr "description" j
  if (description.map String.length).getD 0 ≤ 30 then
    let price ← jsonLookup "price" j >>= jsonToNum
    if 0 < price then
      let tax ← decodeOptField jsonToNum "tax" j
      let tagsJson ← match jsonLookup "tags" j with
        | none => some []
        | some (Json.arr vs) => some vs
        | some _ => none
      let tags ← tagsJson.mapM jsonToStr
      let image ← decodeOptField decodeImage "image" j
      some { name := name, description := description, price := price,
             tax := tax, tags := tags.eraseDups, image := image }
    else none
  else none

/-- Decode the `User` model from a JSON value: username and password
required, full_name optional (default None), age defaulted to 0. -/
def decodeUser (j : Json) : Option User := do
  let username ← jsonLookup "username" j >>= jsonToStr
  let full_name ← decodeOptField jsonToStr "full_name" j
  let age ← match jsonLookup "age" j with
    | none => some 0
    | some v => jsonToInt v
  let password ← jsonLookup "password" j >>= jsonToStr
  some { username := username, full_name := full_name, age := age, password := password }

/-- Body binding for POST /items/: the single body parameter `item` is
not embedded, so the whole body is the Item payload. -/
def decodeCreateItemBody (j : Json) : Option Item := decodeItem j

/-- Body binding for PUT /items/(item_id): three body parameters, each
read from its own top-level key item / user / counter. -/
def decodeUpdateItemBody (j : Json) : Option (Item × User × Int) :=
  match jsonLookup "item" j with
  | none => none
  | some ji =>
    match decodeItem ji with
    | none => none
    | some i =>
      match jsonLookup "user" j with
      | none => none
      | some ju =>
        match decodeUser ju with
        | none => none
        | some u =>
          match jsonLookup "counter" j with
          | none => none
          | some jc =>
            match jsonToInt jc with
            | none => none
            | some c => some (i, u, c)

/-- Body binding for PUT /items/single-model/(item_id): the single body
parameter is declared Body(embed=True), so the Item payload must be
nested under the key item. -/
def decodeSingleModelBody (j : Json) : Option Item :=
  match jsonLookup "item" j with
  | none => none
  | some ji => decodeItem ji

/-- POST /items/ end to end: decode the body (422 on failure), run
`create_item`, a raising handler giving a 500. -/
def handleCreateItem (body : Json) : Response :=
  match decodeCreateItemBody body with
  | none => Response.err [BindError.typeError "item"]
  | some i =>
    match create_item i with
    | none => Response.handlerFault
    | some r => Response.ok (Json.obj r)

/-- PUT /items/single-model/(item_id) end to end. -/
def handleSingleModel (item_id : Int) (body : Json) : Response :=
  match decodeSingleModelBody body with
  | none => Response.err [BindError.typeError "item"]
  | some i =>
    match update_single_model item_id i with
    | none => Response.handlerFault
    | some r => Response.ok r

/-! ## Counting trailing occurrences of a marker

Used to state that `create_item` appends its marker exactly once: the
number of consecutive trailing copies of the marker grows by exactly
one. -/

/-- Number of consecutive copies of a non-empty prefix `m` at the head
of `l`. -/
def repPrefixCount (m l : List Char) : Nat :=
  if h : m ≠ [] ∧ m.isPrefixOf l then
    1 + repPrefixCount m (l.drop m.length)
  else 0
termination_by l.length
decreasing_by
  have hm : 0 < m.length := List.length_pos.mpr h.1
  have hl : m.length ≤ l.length := (List.isPrefixOf_iff_prefix.mp h.2).length_le
  simp only [List.length_drop]
  omega

/-- Number of consecutive copies of `marker` at the end of `s`: trailing
copies of the marker are leading copies of its reversal in the reversed
string. -/
def markerSuffixCount (marker s : String) : Nat :=
  repPrefixCount marker.data.reverse s.data.reverse

/-- Prepending one copy of a non-empty block raises its leading-copy
count by exactly one. -/
theorem repPrefixCount_cons_block (m l : List Char) (hm : m ≠ []) :
    repPrefixCount m (m ++ l) = 1 + repPrefixCount m l := by
  rw [repPrefixCount]
  have hp : m.isPrefixOf (m ++ l) := List.isPrefixOf_iff_prefix.mpr (List.prefix_append m l)
  simp [hm, hp, List.drop_left]

/-- Appending one copy of a non-empty marker raises its trailing-copy
count by exactly one, whatever the original string ends with. -/
theorem markerSuffixCount_append (marker s : String) (hm : marker.data ≠ []) :
    markerSuffixCount marker (s ++ marker) = markerSuffixCount marker s + 1 := by
  unfold markerSuffixCount
  rw [String.data_append, List.reverse_append]
  rw [repPrefixCount_cons_block _ _ (by simpa using hm)]
  omega

/-! ## Claim theorems -/

/-- Claim C1, as stated, is false: route matching is first-match in
registration order, so with the two routes registered in the opposite
order (the name-pattern route first), the GET path /names/name/prz is
routed to `read_name`, not `read_prz`. -/
theorem c1_order_matters_counterexample :
    matchRoute [routeName, routePrz] Method.get segmentsPrz = some HandlerId.read_name ∧
    HandlerId.read_name ≠ HandlerId.read_prz := by
  exact ⟨rfl, by decide⟩

/-- Claim C1, amended: in the registration order of src/main.py, where
`read_prz` is registered before `read_name`, every GET request for
/names/name/(s) with a non-empty third segment routes to `read_prz`
when the segment is the literal prz and to `read_name` otherwise; in
particular /names/name/prz always selects `read_prz`. -/
theorem c1_literal_route_wins (s : String) (hs : s ≠ "") :
    matchRoute appRoutes Method.get ["names", "name", s] =
      some (if s = "prz" then HandlerId.read_prz else HandlerId.read_name) := by
  by_cases hp : s = "prz"
  · subst hp
    rfl
  · have hp' : ¬("prz" = s) := fun h => hp h.symm
    simp [matchRoute, appRoutes, routePrz, routeName, matchPattern, matchSegment,
      List.find?, hp, hp', hs]

/-- Witness for C1 at the concrete segments prz and olaboga. -/
theorem c1_literal_route_wins_witness :
    matchRoute appRoutes Method.get segmentsPrz = some HandlerId.read_prz ∧
    matchRoute appRoutes Method.get ["names", "name", "olaboga"] = some HandlerId.read_name := by
  constructor
  · have h := c1_literal_route_wins "prz" (by decide)
    simpa using h
  · have h := c1_literal_route_wins "olaboga" (by decide)
    simpa using h

/-- Claim C2: a /create-user/ response carries exactly the fields
username and full_name, never password or age, and two valid requests
that agree on username and full_name (so differ at most in password or
age) produce identical responses. -/
theorem c2_create_user_filters (u v : User) :
    (create_user u).map Prod.fst = ["username", "full_name"] ∧
    ("password" ∉ (create_user u).map Prod.fst ∧ "age" ∉ (create_user u).map Prod.fst) ∧
    (u.username = v.username → u.full_name = v.full_name → create_user u = create_user v) := by
  have hu : create_user u = [("username", Json.str u.username), ("full_name", optStr u.full_name)] := by
    simp [create_user, userDict, userOutputFields, createUserExclude]
  have hv : create_user v = [("username", Json.str v.username), ("full_name", optStr v.full_name)] := by
    simp [create_user, userDict, userOutputFields, createUserExclude]
  refine ⟨by simp [hu], ⟨by simp [hu], by simp [hu]⟩, ?_⟩
  intro h1 h2
  rw [hu, hv, h1, h2]

/-- Witness for C2: two users differing only in password and age give
the same response. -/
theorem c2_create_user_filters_witness :
    create_user { username := "ala", full_name := some "Ala", age := 3, password := "tajne" } =
      create_user { username := "ala", full_name := some "Ala", age := 44, password := "inne" } :=
  (c2_create_user_filters _ _).2.2 rfl rfl

/-- Claim C3: for an item whose tax is a number, `create_item` answers
with brutto exactly price + tax, and with the name being the request
name with the marker appended, so that the number of trailing copies of
the marker is exactly one more than in the request name. -/
theorem c3_create_item_brutto (i : Item) (t : Rat) (ht : i.tax = some t) :
    ∃ r, create_item i = some r ∧
      r.lookup "brutto" = some (Json.num (i.price + t)) ∧
      r.lookup "name" = some (Json.str (i.name ++ happyMarker)) ∧
      markerSuffixCount happyMarker (i.name ++ happyMarker) =
        markerSuffixCount happyMarker i.name + 1 := by
  refine ⟨itemDict { i with name := i.name ++ happyMarker } ++ [("brutto", Json.num (i.price + t))],
    ?_, ?_, ?_, ?_⟩
  · simp [create_item, ht]
  · simp [itemDict, List.lookup]
  · simp [itemDict, List.lookup]
  · exact markerSuffixCount_append happyMarker i.name (by decide)

/-- Witness for C3 at a concrete item. -/
theorem c3_create_item_brutto_witness :
    ∃ r, create_item { name := "Foo", price := 10, tax := some 2 } = some r ∧
      r.lookup "brutto" = some (Json.num (10 + 2)) ∧
      r.lookup "name" = some (Json.str ("Foo" ++ happyMarker)) ∧
      markerSuffixCount happyMarker ("Foo" ++ happyMarker) =
        markerSuffixCount happyMarker "Foo" + 1 :=
  c3_create_item_brutto { name := "Foo", price := 10, tax := some 2 } 2 rfl

/-- Claim C4: on /items-multi-q/ the repeated q keys are collected in
request order (concretely, q=3 and q=90, with other keys interleaved,
bind q to the ordered list 3, 90); the bound list is always, in order,
drawn from the request values or the default zupa; and a request
carrying no q key binds the default list zupa. -/
theorem c4_multi_query (params : QueryParams) :
    handleMultiQ [("a", "1"), ("q", "3"), ("b", "2"), ("q", "90")] =
      Response.ok (Json.obj [("q", Json.arr [Json.str "3", Json.str "90"])]) ∧
    (bindMultiQ params).Sublist ("zupa" :: params.map Prod.snd) ∧
    ((∀ p ∈ params, p.1 ≠ "q") → handleMultiQ params =
      Response.ok (Json.obj [("q", Json.arr [Json.str "zupa"])])) := by
  refine ⟨rfl, ?_, ?_⟩
  · have hsub : (getQueryValues "q" params).Sublist (params.map Prod.snd) :=
      List.Sublist.map Prod.snd (List.filter_sublist params)
    unfold bindMultiQ
    cases hq : getQueryValues "q" params with
    | nil => exact List.Sublist.cons₂ "zupa" (List.nil_sublist _)
    | cons v vs =>
      rw [hq] at hsub
      exact List.Sublist.cons "zupa" hsub
  · intro hnone
    have hq : getQueryValues "q" params = [] := by
      unfold getQueryValues
      rw [List.filter_eq_nil_iff.mpr]
      · rfl
      · intro p hp
        simpa using hnone p hp
    simp [handleMultiQ, bindMultiQ, hq, handle_multi_queries]

/-- Witness for C4 at a request with no q key. -/
theorem c4_multi_query_witness :
    handleMultiQ [("other", "x")] =
      Response.ok (Json.obj [("q", Json.arr [Json.str "zupa"])]) :=
  (c4_multi_query [("other", "x")]).2.2 (by decide)

/-- Claim C5: on /new-path/(item_id) with the required query parameter
q supplied, binding succeeds exactly when the raw segment converts to
an integer n with 1 ≤ n < 1000; concretely 0 is rejected by ge, 999 is
accepted, 1000 is rejected by lt. -/
theorem c5_new_path_bounds (raw qv : String) :
    ((handleNewPath raw [("q", qv)]).isOk = true ↔
      ∃ n, parsePathInt raw = some n ∧ 1 ≤ n ∧ n < 1000) ∧
    handleNewPath "0" [("q", "x")] = Response.err [BindError.constraintError "item_id" "ge"] ∧
    handleNewPath "999" [("q", "x")] = Response.ok (new_path "x" 999) ∧
    handleNewPath "1000" [("q", "x")] = Response.err [BindError.constraintError "item_id" "lt"] := by
  refine ⟨?_, rfl, rfl, rfl⟩
  have hqv : getQueryValue "q" [("q", qv)] = some qv := rfl
  unfold handleNewPath newPathItemIdErrors
  rw [hqv]
  cases hp : parsePathInt raw with
  | none => simp [Response.isOk]
  | some n =>
    by_cases h1 : n < 1
    · simp only [if_pos h1, List.nil_append, Response.isOk]
      constructor
      · intro h
        exact absurd h (by simp)
      · rintro ⟨m, hm, hge, hlt⟩
        injection hm with hm
        omega
    · by_cases h2 : 1000 ≤ n
      · simp only [if_neg h1, if_pos h2, List.nil_append, Response.isOk]
        constructor
        · intro h
          exact absurd h (by simp)
        · rintro ⟨m, hm, hge, hlt⟩
          injection hm with hm
          omega
      · simp only [if_neg h1, if_neg h2, List.nil_append, hqv, Response.isOk]
        constructor
        · intro _
          exact ⟨n, rfl, by omega, by omega⟩
        · intro _
          trivial

/-- Witness for C5 at the accepted concrete id 999. -/
theorem c5_new_path_bounds_witness :
    handleNewPath "999" [("q", "x")] = Response.ok (new_path "x" 999) :=
  (c5_new_path_bounds "999" "x").2.2.1

/-- Claim C6: on /names/age/(age), a segment that does not convert to
an integer is a 422 binding error, and a segment that converts to the
integer n gives a 200 response of `read_age` applied to the integer n. -/
theorem c6_read_age (seg : String) :
    (parsePathInt seg = none → handleAge seg = Response.err [BindError.typeError "age"]) ∧
    (∀ n : Int, parsePathInt seg = some n → handleAge seg = Response.ok (read_age n)) := by
  constructor
  · intro h
    simp [handleAge, h]
  · intro n h
    simp [handleAge, h]

/-- Witness for C6 at the concrete segments abc and 7. -/
theorem c6_read_age_witness :
    handleAge "abc" = Response.err [BindError.typeError "age"] ∧
    handleAge "7" = Response.ok (read_age 7) :=
  ⟨(c6_read_age "abc").1 rfl, (c6_read_age "7").2 7 rfl⟩

/-- Claim C7: a /spice/(spice) path segment binds exactly when it is
one of the declared member values pepper, salt, maggi; pepper gives the
use-pepper action and ketchup gives a 422 listing the valid members. -/
theorem c7_spice_enum (raw : String) :
    ((Spice.fromString raw).isSome = true ↔ raw ∈ spiceValues) ∧
    handleSpice "pepper" = Response.ok (Json.obj [("action", Json.str "use pepper")]) ∧
    handleSpice "ketchup" = Response.err [BindError.enumError "spice" ["pepper", "salt", "maggi"]] := by
  refine ⟨?_, rfl, rfl⟩
  unfold Spice.fromString spiceValues
  split_ifs with h1 h2 h3
  · simp [Spice.value] at h1
    simp [Spice.value, h1]
  · simp [Spice.value] at h2
    simp [Spice.value, h2]
  · simp [Spice.value] at h3
    simp [Spice.value, h3]
  · simp [Spice.value] at h1 h2 h3
    simp [Spice.value, h1, h2, h3]

/-- Witness for C7 at the concrete member value pepper. -/
theorem c7_spice_enum_witness :
    handleSpice "pepper" = Response.ok (Json.obj [("action", Json.str "use pepper")]) :=
  (c7_spice_enum "pepper").2.1

/-- Claim C8: a PUT /items/(item_id) body binds only when the three
body parameters sit each under its own top-level key item, user,
counter; a PUT /items/single-model/(item_id) body binds only when the
item payload is nested under the key item, and an item nested there
binds exactly as the bare payload would for a non-embedded parameter;
concretely, a bare Item object is accepted whole by POST /items/ but
rejected by the embedded route, and the wrapped form is rejected by
POST /items/. -/
theorem c8_body_nesting :
    (∀ j : Json, (decodeUpdateItemBody j).isSome = true →
      ∃ kvs, j = Json.obj kvs ∧ (kvs.lookup "item").isSome = true ∧
        (kvs.lookup "user").isSome = true ∧ (kvs.lookup "counter").isSome = true) ∧
    (∀ j : Json, (decodeSingleModelBody j).isSome = true →
      ∃ kvs, j = Json.obj kvs ∧ (kvs.lookup "item").isSome = true) ∧
    (∀ j : Json, decodeSingleModelBody (Json.obj [("item", j)]) = decodeItem j) ∧
    (decodeCreateItemBody
      (Json.obj [("name", Json.str "Foo"), ("price", Json.num 10), ("tax", Json.num 2)])).isSome
        = true ∧
    (decodeSingleModelBody
      (Json.obj [("name", Json.str "Foo"), ("price", Json.num 10), ("tax", Json.num 2)])).isSome
        = false ∧
    (decodeCreateItemBody
      (Json.obj [("item",
        Json.obj [("name", Json.str "Foo"), ("price", Json.num 10), ("tax", Json.num 2)])])).isSome
        = false := by
  refine ⟨?_, ?_, fun j => rfl, rfl, rfl, rfl⟩
  · intro j h
    cases j with
    | obj kvs =>
      refine ⟨kvs, rfl, ?_, ?_, ?_⟩ <;>
        · unfold decodeUpdateItemBody jsonLookup at h
          cases h1 : kvs.lookup "item" <;> simp only [h1] at h
          case' some ji =>
            cases h2 : decodeItem ji <;> simp only [h2] at h
            case' some i =>
              cases h3 : kvs.lookup "user" <;> simp only [h3] at h
              case' some ju =>
                cases h4 : decodeUser ju <;> simp only [h4] at h
                case' some u =>
                  cases h5 : kvs.lookup "counter" <;> simp only [h5] at h
                  case' some jc => simp
          all_goals simp at h
    | null => simp [decodeUpdateItemBody, jsonLookup] at h
    | str s => simp [decodeUpdateItemBody, jsonLookup] at h
    | num q => simp [decodeUpdateItemBody, jsonLookup] at h
    | boolean b => simp [decodeUpdateItemBody, jsonLookup] at h
    | arr vs => simp [decodeUpdateItemBody, jsonLookup] at h
  · intro j h
    cases j with
    | obj kvs =>
      refine ⟨kvs, rfl, ?_⟩
      unfold decodeSingleModelBody jsonLookup at h
      cases h1 : kvs.lookup "item" <;> simp only [h1] at h
      · simp at h
      · simp
    | null => simp [decodeSingleModelBody, jsonLookup] at h
    | str s => simp [decodeSingleModelBody, jsonLookup] at h
    | num q => simp [decodeSingleModelBody, jsonLookup] at h
    | boolean b => simp [decodeSingleModelBody, jsonLookup] at h
    | arr vs => simp [decodeSingleModelBody, jsonLookup] at h

/-- Witness for C8: a concrete three-key payload binds on the
multi-parameter route. -/
theorem c8_body_nesting_witness :
    ∃ kvs,
      (Json.obj
        [ ("item", Json.obj [("name", Json.str "Foo"), ("price", Json.num 10), ("tax", Json.num 2)])
        , ("user", Json.obj [("username", Json.str "ala"), ("password", Json.str "pw")])
        , ("counter", Json.num 6) ]) = Json.obj kvs ∧
      (kvs.lookup "item").isSome = true ∧
      (kvs.lookup "user").isSome = true ∧
      (kvs.lookup "counter").isSome = true :=
  c8_body_nesting.1
    (Json.obj
      [ ("item", Json.obj [("name", Json.str "Foo"), ("price", Json.num 10), ("tax", Json.num 2)])
      , ("user", Json.obj [("username", Json.str "ala"), ("password", Json.str "pw")])
      , ("counter", Json.num 6) ])
    rfl

/-- Claim C9: on GET /items/ the query value is read under the alias
item-query; an absent value answers the bare fuu response; a present
value is accepted exactly when it is fixedquery (the only string that
satisfies the declared length bounds and anchored pattern) and is then
echoed under key q; a value under the unaliased key q is ignored; a
violating value is a 422. -/
theorem c9_items_alias_constraints (s : String) :
    handleItems [] = Response.ok (Json.obj [("fuu", Json.str "bar")]) ∧
    ((handleItems [("item-query", s)]).isOk = true ↔ s = "fixedquery") ∧
    handleItems [("item-query", "fixedquery")] =
      Response.ok (Json.obj [("fuu", Json.str "bar"), ("q", Json.str "fixedquery")]) ∧
    handleItems [("q", "fixedquery")] = Response.ok (Json.obj [("fuu", Json.str "bar")]) ∧
    (handleItems [("item-query", "ab")]).isOk = false := by
  have key : ∀ t : String, itemsQErrors t = [] ↔ t = "fixedquery" := by
    intro t
    constructor
    · intro h
      by_cases ht : t = "fixedquery"
      · exact ht
      · unfold itemsQErrors regexFixedquery at h
        simp [ht] at h
    · intro ht
      subst ht
      rfl
  refine ⟨rfl, ?_, rfl, rfl, rfl⟩
  have hqv : getQueryValue "item-query" [("item-query", s)] = some s := rfl
  unfold handleItems
  rw [hqv]
  by_cases hz : itemsQErrors s = []
  · simp [hz, Response.isOk]
    exact (key s).mp hz
  · simp [hz, Response.isOk]
    exact fun hs => hz ((key s).mpr hs)

/-- Witness for C9 at the sole accepted query value. -/
theorem c9_items_alias_constraints_witness :
    handleItems [("item-query", "fixedquery")] =
      Response.ok (Json.obj [("fuu", Json.str "bar"), ("q", Json.str "fixedquery")]) :=
  (c9_items_alias_constraints "fixedquery").2.2.1

/-- Claim C10: the Item model admits a null tax, so a body that passes
binding with tax explicitly null makes the handler computation
price + tax raise: POST /items/ and the embedded single-model PUT both
turn such an accepted body into a 500 handler fault, not a 422. -/
theorem c10_null_tax_fault (i : Item) :
    (i.tax = none → create_item i = none) ∧
    decodeCreateItemBody (Json.obj [("name", Json.str "Foo"), ("price", Json.num 10), ("tax", Json.null)]) =
      some { name := "Foo", description := none, price := 10, tax := none, tags := [], image := none } ∧
    handleCreateItem (Json.obj [("name", Json.str "Foo"), ("price", Json.num 10), ("tax", Json.null)]) =
      Response.handlerFault ∧
    handleSingleModel 1 (Json.obj [("item",
        Json.obj [("name", Json.str "Foo"), ("price", Json.num 10), ("tax", Json.null)])]) =
      Response.handlerFault := by
  refine ⟨?_, rfl, rfl, rfl⟩
  intro h
  simp [create_item, h]

/-- Witness for C10 at a concrete item with null tax. -/
theorem c10_null_tax_fault_witness :
    create_item { name := "Foo", price := 10, tax := none } = none :=
  (c10_null_tax_fault { name := "Foo", price := 10, tax := none }).1 rfl

end FastApiTutorial
